import Mathlib

/-!
Verification of the fence token-validation and visa-synchronization core.

The development shallowly embeds the Python sources:
- `fence/jwt/validator.py` (bearer/refresh token validation),
- `fence/resources/openid/ras_oauth2.py` (RAS OAuth2 client, visa sync),
- `fence/sync/passport_sync/ras_sync.py` (visa-to-access mapping),
and proves the spec's claims about them.

Python dictionaries are modelled as association lists, Python sets as
duplicate-free lists with membership semantics, exceptions as `Except`,
and the network and database as explicit oracles / state threading.
-/

namespace Fence

/-- Python `dict.get(k)`: the value at the first matching key, if any. -/
def dictGet {α : Type} (d : List (String × α)) (k : String) : Option α :=
  (d.find? (fun p => p.1 = k)).map (fun p => p.2)

/-- Python `d[k] = v`: replace the value in place if the key exists
(Python dict keys are unique and keep insertion order), else append. -/
def dictSet {α : Type} : List (String × α) → String → α → List (String × α)
  | [], k, v => [(k, v)]
  | p :: rest, k, v =>
    if p.1 = k then (k, v) :: rest else p :: dictSet rest k v

/-- Python truthiness of an optional string: `None` and `""` are falsy. -/
def truthy (o : Option String) : Bool := (o.getD "") ≠ ""

/-! ## Local token validator (`fence/jwt/validator.py`) -/

/-- The characters of a string, each as a one-character string: Python's
`set.update(s)` with a `str` argument iterates over its characters. -/
def charStrings (s : String) : List String :=
  s.toList.map (fun c => String.mk [c])

/-- The audience set actually checked by `validate_bearer_token`:
`aud = set(scopes); aud.update('access')`.  Since `'access'` is a string,
`set.update` adds its characters one by one. -/
def bearerCheckedAud (scopes : List String) : List String :=
  (scopes ++ charStrings "access").dedup

/-- An access JWT as seen by the validation layer: its audience claim,
whether it is expired, and whether its signature verifies under the
deployment's key. -/
structure AccessJwt where
  aud : List String
  expired : Bool
  sigValid : Bool
deriving DecidableEq

/-- Modelled from the spec: `cdispyutils.auth.validate_request_jwt(aud)`
(external library) validates the request's JWT, failing if the signature is
invalid, the token is expired, or any required audience entry is missing
from the token's audience claim. -/
def validate_request_jwt (requiredAud : List String) (tok : AccessJwt) :
    Except String Unit :=
  if ¬ tok.sigValid then .error "signature validation failed"
  else if tok.expired then .error "token is expired"
  else if requiredAud.all (fun a => tok.aud.contains a) then .ok ()
  else .error "missing audience"

/-- `JWTValidator.validate_bearer_token`: returns the boolean result together
with the `request.error_message` recorded on failure. -/
def validate_bearer_token (token : Option AccessJwt) (scopes : List String) :
    Bool × Option String :=
  match token with
  | none => (false, some "No token provided.")
  | some tok =>
    match validate_request_jwt (bearerCheckedAud scopes) tok with
    | .error e => (false, some e)
    | .ok _ => (true, none)

/-- A refresh JWT as seen by the validation layer. -/
structure RefreshJwt where
  sigValid : Bool
  expired : Bool
  aud : List String
  iss : String
  jti : Option String
deriving DecidableEq

/-- Modelled from the spec: `authutils`' `validate_jwt` as called in
`validate_refresh_token` — signature under the deployment's own public key,
non-expired, a `refresh` audience, and issuer equal to the configured host
name; raises (models as `.error`) on failure, returns the decoded claims on
success. -/
def auth_validate_jwt_refresh (t : RefreshJwt) (host : String) :
    Except String RefreshJwt :=
  if ¬ t.sigValid then .error "signature validation failed"
  else if t.expired then .error "token is expired"
  else if "refresh" ∉ t.aud then .error "missing refresh audience"
  else if t.iss ≠ host then .error "wrong issuer"
  else .ok t

/-- `JWTValidator.validate_refresh_token`.  An empty token returns `false`;
a failure inside `auth.validate_jwt` is NOT caught by the Python code, so it
propagates as an exception (`.error`); a missing/falsy `jti` or a
blacklisted `jti` returns `false` with the recorded reason. -/
def validate_refresh_token (refresh_token : Option RefreshJwt)
    (blacklist : List String) (host : String) :
    Except String (Bool × Option String) :=
  match refresh_token with
  | none => .ok (false, some "No token provided.")
  | some tok =>
    match auth_validate_jwt_refresh tok host with
    | .error e => .error e
    | .ok decoded =>
      if ¬ truthy decoded.jti then .ok (false, some "Token missing jti claim.")
      else if decoded.jti.getD "" ∈ blacklist then
        .ok (false, some "Token is blacklisted.")
      else .ok (true, none)

/-! ## RAS visa synchronization (`fence/resources/openid/ras_oauth2.py`) -/

/-- The `ga4gh_visa_v1` claim object of a decoded visa. -/
structure Ga4ghVisaClaim where
  source : String
  type : String
  asserted : Int
deriving DecidableEq

/-- The payload of a visa JWT, as produced by a successful decode. -/
structure DecodedVisa where
  iss : String
  sub : Option String
  iat : Option Int
  exp : Int
  hasAud : Bool
  scope : List String
  ga4gh : Ga4ghVisaClaim
deriving DecidableEq

/-- An encoded visa token: its raw form, the (issuer, key-id) pair readable
from its header/claims without signature verification (`none` when
`get_iss`/`get_kid` raises on a malformed token), the key that actually
verifies its signature, and its payload. -/
structure EncVisa where
  raw : String
  header : Option (String × String)
  sigKey : String
  payload : DecodedVisa
deriving DecidableEq

/-- A fetched key-set document: key-id to verification key. -/
abbrev KeySet := List (String × String)

/-- The public-key cache: issuer to key-set, as in `pkey_cache`. -/
abbrev PKeyCache := List (String × KeySet)

/-- `pkey_cache.get(visa_issuer, {}).get(visa_kid)`. -/
def cacheGetKey (c : PKeyCache) (iss kid : String) : Option String :=
  dictGet ((dictGet c iss).getD []) kid

/-- Modelled from the spec: `refresh_cronjob_pkey_cache`
(`fence/resources/ga4gh/passports.py`, not among the sources) fetches the
issuer's published key-set document, populates the cache keyed by
(issuer, key-id), and returns the key for the requested key-id if present;
a failed fetch raises. `jwks` is the network oracle. -/
def refresh_cronjob_pkey_cache (jwks : String → Except String KeySet)
    (iss kid : String) (cache : PKeyCache) :
    Except String (Option String × PKeyCache) :=
  match jwks iss with
  | .error e => .error e
  | .ok ks => .ok (dictGet ks kid, dictSet cache iss ks)

/-- Modelled from the spec: `authutils.token.core.validate_jwt` (external
library) as invoked on a visa: signature under the resolved key, no `aud`
claim (`aud=None` for an embedded token), a `scope` claim including
`openid`, issuer in the configured allowlist, and required `iat` and `exp`
claims with `exp` in the future. -/
def authutils_validate_jwt (enc : EncVisa) (key : String)
    (allowlist : List String) (now : Int) : Except String DecodedVisa :=
  if key ≠ enc.sigKey then .error "signature verification failed"
  else if enc.payload.hasAud then .error "embedded token must not contain aud"
  else if "openid" ∉ enc.payload.scope then .error "missing openid scope"
  else if enc.payload.iss ∉ allowlist then .error "issuer not allowed"
  else if enc.payload.iat.isNone then .error "iat claim required"
  else if enc.payload.exp ≤ now then .error "token is expired"
  else .ok enc.payload

/-- A persisted `GA4GHVisaV1` record, as constructed in `update_user_visas`. -/
structure GVisaRec where
  source : String
  type : String
  asserted : Int
  expires : Int
  ga4gh_visa : String
deriving DecidableEq

/-- Observable events of one `update_user_visas` call. `clearCommit` is
`user.ga4gh_visas_v1 = []; db_session.commit()`; `netFetch` covers the
token-endpoint and user-info network calls inside the `try` block;
`jwksFetch` is a key-set fetch on cache miss; `persistCommit` is the
per-visa `add` + `commit`. -/
inductive Ev where
  | clearCommit : Ev
  | netFetch : Ev
  | jwksFetch : String → Ev
  | persistCommit : String → Ev
deriving DecidableEq

/-- The `validate_jwt` + explicit `sub` check + `GA4GHVisaV1(...)` tail of
one loop iteration of `update_user_visas`: `none` means the visa was
discarded (`continue`). -/
def validateAndBuild (enc : EncVisa) (key : String) (allowlist : List String)
    (now : Int) : Option GVisaRec :=
  match authutils_validate_jwt enc key allowlist now with
  | .error _ => none
  | .ok d =>
    match d.sub with
    | none => none
    | some _ => some ⟨d.ga4gh.source, d.ga4gh.type, d.ga4gh.asserted, d.exp, enc.raw⟩

/-- One iteration of the visa loop in `update_user_visas`: header parse, key
resolution through the cache (fetching the issuer's key-set only on a
miss), validation, and record construction.  Returns the persisted record
(if any), the updated cache, and the events performed. -/
def processVisa (jwks : String → Except String KeySet)
    (allowlist : List String) (now : Int) (cache : PKeyCache) (enc : EncVisa) :
    Option GVisaRec × PKeyCache × List Ev :=
  match enc.header with
  | none => (none, cache, [])
  | some (iss, kid) =>
    let cached := (cacheGetKey cache iss kid).getD ""
    if cached ≠ "" then
      (validateAndBuild enc cached allowlist now, cache, [])
    else
      match refresh_cronjob_pkey_cache jwks iss kid cache with
      | .error _ => (none, cache, [.jwksFetch iss])
      | .ok pr =>
        let pk := pr.1.getD ""
        if pk ≠ "" then
          (validateAndBuild enc pk allowlist now, pr.2, [.jwksFetch iss])
        else (none, pr.2, [.jwksFetch iss])

/-- The visa loop of `update_user_visas` over a batch, threading the cache
and accumulating persisted records and events. -/
def visaLoop (jwks : String → Except String KeySet) (allowlist : List String)
    (now : Int) (encs : List EncVisa) (cache : PKeyCache) :
    List GVisaRec × PKeyCache × List Ev :=
  match encs with
  | [] => ([], cache, [])
  | e :: rest =>
    let p := processVisa jwks allowlist now cache e
    let q := visaLoop jwks allowlist now rest p.2.1
    (p.1.toList ++ q.1, q.2.1,
     p.2.2 ++ (p.1.toList.map (fun v => Ev.persistCommit v.ga4gh_visa)) ++ q.2.2)

/-- One attempt of `update_user_visas` (the decorated function body): clear
and commit the user's visa set, then fetch token / user-info / encoded
visas (`fetch` is the combined outcome of the `try` block; an exception is
logged and re-raised), then run the visa loop.  Returns the outcome, the
user's final committed visa set, the cache, and the event trace. -/
def update_user_visas_once (fetch : Except String (List EncVisa))
    (jwks : String → Except String KeySet) (allowlist : List String)
    (now : Int) (cache : PKeyCache) :
    Except String Unit × List GVisaRec × PKeyCache × List Ev :=
  match fetch with
  | .error e => (.error e, [], cache, [.clearCommit, .netFetch])
  | .ok encs =>
    let r := visaLoop jwks allowlist now encs cache
    (.ok (), r.1, r.2.1, [.clearCommit, .netFetch] ++ r.2.2)

/-- The `@backoff.on_exception` wrapper: the whole function body is retried
on exception, each attempt's network outcome given by `attempts`, up to the
bounded attempt count (= `attempts.length`); the state left by a failed
attempt (visas cleared) carries into the next. -/
def update_user_visas_retry (jwks : String → Except String KeySet)
    (allowlist : List String) (now : Int)
    (attempts : List (Except String (List EncVisa))) (cache : PKeyCache) :
    Except String Unit × List GVisaRec × PKeyCache :=
  match attempts with
  | [] => (.ok (), [], cache)
  | a :: rest =>
    let r := update_user_visas_once a jwks allowlist now cache
    match r.1, rest with
    | .ok _, _ => (.ok (), r.2.1, r.2.2.1)
    | .error e, [] => (.error e, r.2.1, r.2.2.1)
    | .error _, _ :: _ => update_user_visas_retry jwks allowlist now rest r.2.2.1

/-! ## Username resolution (`RASOauth2Client.get_user_id`) -/

/-- The user-info document fields consulted by `get_user_id`. -/
structure RasUserinfo where
  UserID : Option String
  userid : Option String
  preferred_username : Option String
  email : Option String
deriving DecidableEq

/-- The username-derivation and result-construction part of `get_user_id`:
the `if`/`elif` chain over the user-info document and the ID token's `sub`
claim, ending in `{"error": ...}` when no field is truthy, and
`{"username": ..., "email": ...}` otherwise. -/
def get_user_id (userinfo : RasUserinfo) (claims_sub : Option String) :
    Except String (String × Option String) :=
  let username : Option String :=
    if truthy userinfo.UserID then userinfo.UserID
    else if truthy userinfo.userid then userinfo.userid
    else if truthy userinfo.preferred_username then userinfo.preferred_username
    else if truthy claims_sub then claims_sub
    else none
  match username with
  | none => .error "Can't get user's info"
  | some u => .ok (u, userinfo.email)

/-! ## Access mapping (`fence/sync/passport_sync/ras_sync.py`) -/

/-- One entry of a visa's `ras_dbgap_permissions` list; all fields are read
with `dict.get` and may be absent. -/
structure Permission where
  phs_id : Option String
  version : Option String
  participant_set : Option String
  consent_group : Option String
  role : Option String
deriving DecidableEq

/-- The user record fields consulted by `_parse_single_visa`. -/
structure RasUser where
  email : Option String
  display_name : Option String
  phone_number : Option String
  ga4gh_visas_v1 : List String
deriving DecidableEq

/-- The `full_phsid` computed for one permission:
`phsid`, plus `"." + consent_group` when consent-code parsing is enabled
and `consent_group` is truthy. -/
def full_phsid (parse_consent_code : Bool) (p : Permission) : String :=
  let phsid := p.phs_id.getD ""
  if parse_consent_code ∧ truthy p.consent_group then
    phsid ++ "." ++ p.consent_group.getD ""
  else phsid

/-- The body of `_parse_single_visa`'s permission loop: insert the access
row for `p` and overwrite `info["tags"]` wholesale. -/
def permStep (parse_consent_code : Bool)
    (acc : List (String × List String) × List (String × String))
    (p : Permission) :
    List (String × List String) × List (String × String) :=
  (dictSet acc.1 (full_phsid parse_consent_code p) ["read-storage", "read"],
   [("dbgap_role", p.role.getD "")])

/-- The result of `RASVisa._parse_single_visa`: the project access map, the
`tags` entry of `info`, the contact fields of `info`, the user's visa set
after the call, and how many clear-commits were performed. -/
structure ParseVisaOut where
  project : List (String × List String)
  tags : List (String × String)
  email : String
  display_name : String
  phone_number : String
  visasAfter : List String
  clearCommits : Nat
deriving DecidableEq

/-- `RASVisa._parse_single_visa`.  `decodeRes` is the outcome of
`jwt.decode(encoded_visa, verify=False)`: `none` when decoding raises (the
visa set is cleared and committed, and `ras_dbgap_permissions` is read from
the empty dict), `some perms` otherwise.  Unexpired visas
(`time.time() < expires`) contribute one access row per permission with the
fixed privilege set; expired ones contribute nothing and trigger a clear. -/
def parse_single_visa (user : RasUser) (decodeRes : Option (List Permission))
    (expires now : Int) (parse_consent_code : Bool) : ParseVisaOut :=
  let perms := (decodeRes.getD [])
  let visas0 := if decodeRes.isNone then [] else user.ga4gh_visas_v1
  let clears0 := if decodeRes.isNone then 1 else 0
  if now < expires then
    let (project, tags) := perms.foldl (permStep parse_consent_code) ([], [])
    ⟨project, tags, user.email.getD "", user.display_name.getD "",
     user.phone_number.getD "", visas0, clears0⟩
  else
    ⟨[], [], user.email.getD "", user.display_name.getD "",
     user.phone_number.getD "", [], clears0 + 1⟩

end Fence

/-! ## Shared helper lemmas -/

/-- A truthy optional string is `some` of its default-read value. -/
theorem Fence.truthy_eq_some {o : Option String} (h : Fence.truthy o) :
    o = some (o.getD "") := by
  cases o with
  | none => simp [Fence.truthy] at h
  | some v => rfl

/-- The written key is among the keys after `dictSet`. -/
theorem Fence.mem_keys_dictSet {α : Type} (d : List (String × α)) (k : String)
    (v : α) : k ∈ (Fence.dictSet d k v).map Prod.fst := by
  induction d with
  | nil => simp [Fence.dictSet]
  | cons p rest ih =>
    by_cases h : p.1 = k <;> simp [Fence.dictSet, h, ih]

/-- `dictSet` preserves all existing keys. -/
theorem Fence.keys_dictSet_mono {α : Type} {d : List (String × α)}
    {k' : String} (k : String) (v : α) (h : k' ∈ d.map Prod.fst) :
    k' ∈ (Fence.dictSet d k v).map Prod.fst := by
  induction d with
  | nil => simp at h
  | cons p rest ih =>
    by_cases hp : p.1 = k
    · simp [Fence.dictSet, hp]
      simp at h
      rcases h with h | h
      · left; exact h.trans hp
      · right; exact h
    · simp [Fence.dictSet, hp]
      simp at h
      rcases h with h | h
      · left; exact h
      · right
        have := ih (by simpa using h)
        simpa using this

/-- The permission fold preserves all project keys already present. -/
theorem Fence.foldl_permStep_keys_mono (pcc : Bool)
    (perms : List Fence.Permission) :
    ∀ (acc : List (String × List String) × List (String × String))
      (k : String), k ∈ acc.1.map Prod.fst →
      k ∈ (perms.foldl (Fence.permStep pcc) acc).1.map Prod.fst := by
  induction perms with
  | nil => intro acc k h; simpa using h
  | cons p rest ih =>
    intro acc k h
    simp only [List.foldl_cons]
    exact ih _ k (Fence.keys_dictSet_mono _ _ h)

/-- Every processed permission's `full_phsid` is a key of the fold's
project map. -/
theorem Fence.foldl_permStep_mem_keys (pcc : Bool)
    (perms : List Fence.Permission) :
    ∀ (acc : List (String × List String) × List (String × String))
      (p : Fence.Permission), p ∈ perms →
      Fence.full_phsid pcc p ∈ (perms.foldl (Fence.permStep pcc) acc).1.map Prod.fst := by
  induction perms with
  | nil => intro acc p h; simp at h
  | cons q rest ih =>
    intro acc p h
    simp only [List.foldl_cons]
    rcases List.mem_cons.mp h with h | h
    · subst h
      exact Fence.foldl_permStep_keys_mono pcc rest _ _
        (Fence.mem_keys_dictSet _ _ _)
    · exact ih _ p h

/-- Each iteration of the permission fold overwrites the `tags` component
wholesale, so a nonempty fold ends with the tag of the last permission. -/
theorem Fence.foldl_permStep_tags (pcc : Bool) (perms : List Fence.Permission)
    (plast : Fence.Permission) (hlast : perms.getLast? = some plast) :
    ∀ (acc : List (String × List String) × List (String × String)),
      (perms.foldl (Fence.permStep pcc) acc).2
        = [("dbgap_role", (plast.role.getD ""))] := by
  induction perms with
  | nil => simp at hlast
  | cons p rest ih =>
    intro acc
    cases rest with
    | nil =>
      simp at hlast
      subst hlast
      simp [Fence.permStep]
    | cons q rest' =>
      rw [List.getLast?_cons_cons] at hlast
      show (List.foldl (Fence.permStep pcc)
        (Fence.permStep pcc acc p) (q :: rest')).2 = _
      exact ih hlast _

/-- A visa whose payload lacks the `sub` claim never yields a record,
whatever key it is checked against. -/
theorem Fence.validateAndBuild_sub_none (enc : Fence.EncVisa) (key : String)
    (allowlist : List String) (now : Int) (h : enc.payload.sub = none) :
    Fence.validateAndBuild enc key allowlist now = none := by
  rw [Fence.validateAndBuild, Fence.authutils_validate_jwt]
  split_ifs <;> simp [h]

/-- A fully valid visa produces exactly the `GA4GHVisaV1` record built from
its `ga4gh_visa_v1` claim object and top-level `exp`. -/
theorem Fence.validateAndBuild_ok (enc : Fence.EncVisa) (key : String)
    (allowlist : List String) (now : Int)
    (hsig : key = enc.sigKey) (haud : enc.payload.hasAud = false)
    (hscope : "openid" ∈ enc.payload.scope)
    (hiss : enc.payload.iss ∈ allowlist)
    (hiat : enc.payload.iat ≠ none) (hexp : now < enc.payload.exp)
    (s : String) (hsub : enc.payload.sub = some s) :
    Fence.validateAndBuild enc key allowlist now
      = some ⟨enc.payload.ga4gh.source, enc.payload.ga4gh.type,
              enc.payload.ga4gh.asserted, enc.payload.exp, enc.raw⟩ := by
  have h6 : ¬ (enc.payload.exp ≤ now) := not_le.mpr hexp
  rw [Fence.validateAndBuild, Fence.authutils_validate_jwt]
  simp [hsig, haud, hscope, hiss, Option.isNone_iff_eq_none, hiat, h6, hsub]

/-! ## Claims -/

/-- C1: the claim states that the audience set checked by
`validate_bearer_token` always contains the string `access` in addition to
the caller-supplied scopes, so that a token lacking the `access` audience
is rejected.  The code instead executes `aud.update('access')`, and Python's
`set.update` iterates a string argument character by character: the checked
set for `scopes = ['openid']` is `{'openid', 'a', 'c', 'e', 's'}`, which
does not contain `'access'`, and a non-expired, validly signed token whose
audience claim is `['openid', 'a', 'c', 'e', 's']` (no `access` audience)
is accepted. -/
theorem validate_bearer_token_access_audience_bug :
    "access" ∉ Fence.bearerCheckedAud ["openid"] ∧
    Fence.bearerCheckedAud ["openid"] = ["openid", "a", "c", "e", "s"] ∧
    Fence.validate_bearer_token
        (some ⟨["openid", "a", "c", "e", "s"], false, true⟩) ["openid"]
      = (true, none) := by
  refine ⟨by decide, by decide, by decide⟩

/-- C2: for a refresh token that passes signature/audience/issuer/expiry
validation, a `jti` found in the blacklist yields `false` with a recorded
reason, and a missing `jti` claim is also rejected with `false` and the
recorded reason. -/
theorem validate_refresh_token_blacklist_rejects
    (tok : Fence.RefreshJwt) (blacklist : List String) (host : String)
    (hvalid : Fence.auth_validate_jwt_refresh tok host = .ok tok) :
    (∀ j, tok.jti = some j → j ∈ blacklist →
      ∃ msg, Fence.validate_refresh_token (some tok) blacklist host
        = .ok (false, some msg)) ∧
    (tok.jti = none →
      Fence.validate_refresh_token (some tok) blacklist host
        = .ok (false, some "Token missing jti claim.")) := by
  constructor
  · intro j hj hb
    by_cases hj0 : j = ""
    · refine ⟨"Token missing jti claim.", ?_⟩
      simp [Fence.validate_refresh_token, hvalid, hj, hj0, Fence.truthy]
    · refine ⟨"Token is blacklisted.", ?_⟩
      simp [Fence.validate_refresh_token, hvalid, hj, hj0, Fence.truthy, hb]
  · intro hj
    simp [Fence.validate_refresh_token, hvalid, hj, Fence.truthy]

/-- Witness for C2 at a concrete blacklisted refresh token. -/
theorem validate_refresh_token_blacklist_rejects_witness :
    ∃ msg,
      Fence.validate_refresh_token
          (some ⟨true, false, ["refresh"], "https://fence.example", some "jti-1"⟩)
          ["jti-1"] "https://fence.example"
        = .ok (false, some msg) :=
  (validate_refresh_token_blacklist_rejects
      ⟨true, false, ["refresh"], "https://fence.example", some "jti-1"⟩
      ["jti-1"] "https://fence.example" rfl).1 "jti-1" rfl (by decide)

/-- C5: a visa whose `expires` is not strictly in the future (`expires ≤ now`)
contributes no project-access entry, and `_parse_single_visa` clears the
user's visa set and commits; a decodable visa with `expires` strictly in the
future leaves the visa set untouched (no clear), so only unexpired visas
contribute access rows. -/
theorem parse_single_visa_expired_no_access_and_clears
    (user : Fence.RasUser) (decodeRes : Option (List Fence.Permission))
    (expires now : Int) (pcc : Bool) :
    (expires ≤ now →
      (Fence.parse_single_visa user decodeRes expires now pcc).project = [] ∧
      (Fence.parse_single_visa user decodeRes expires now pcc).visasAfter = [] ∧
      1 ≤ (Fence.parse_single_visa user decodeRes expires now pcc).clearCommits) ∧
    (∀ perms, decodeRes = some perms → now < expires →
      (Fence.parse_single_visa user decodeRes expires now pcc).visasAfter
        = user.ga4gh_visas_v1 ∧
      (Fence.parse_single_visa user decodeRes expires now pcc).clearCommits = 0) := by
  constructor
  · intro hle
    have hnlt : ¬ now < expires := not_lt.mpr hle
    simp [Fence.parse_single_visa, hnlt]
  · intro perms hdec hlt
    simp [Fence.parse_single_visa, hdec, hlt]

/-- Witness for C5: an expired visa (`expires = 5 ≤ now = 10`) yields no
access rows and a cleared, committed visa set. -/
theorem parse_single_visa_expired_witness :
    (Fence.parse_single_visa ⟨some "e", none, none, ["v"]⟩
        (some [⟨some "phs000200", none, none, some "c1", some "member"⟩])
        5 10 true).project = [] ∧
    (Fence.parse_single_visa ⟨some "e", none, none, ["v"]⟩
        (some [⟨some "phs000200", none, none, some "c1", some "member"⟩])
        5 10 true).visasAfter = [] ∧
    1 ≤ (Fence.parse_single_visa ⟨some "e", none, none, ["v"]⟩
        (some [⟨some "phs000200", none, none, some "c1", some "member"⟩])
        5 10 true).clearCommits :=
  (parse_single_visa_expired_no_access_and_clears
      ⟨some "e", none, none, ["v"]⟩
      (some [⟨some "phs000200", none, none, some "c1", some "member"⟩])
      5 10 true).1 (by decide)

/-- C6: for a permission with `phs_id = "phs000200"` and
`consent_group = "c1"`, the project key produced by `_parse_single_visa` is
exactly `"phs000200.c1"` with consent-code parsing enabled and exactly
`"phs000200"` with it disabled, and in both cases the privilege set attached
to the key is exactly `{read, read-storage}`. -/
theorem parse_single_visa_consent_code_composition
    (user : Fence.RasUser) (p : Fence.Permission) (expires now : Int)
    (hexp : now < expires)
    (hphs : p.phs_id = some "phs000200") (hcg : p.consent_group = some "c1") :
    (Fence.parse_single_visa user (some [p]) expires now true).project
      = [("phs000200.c1", ["read-storage", "read"])] ∧
    (Fence.parse_single_visa user (some [p]) expires now false).project
      = [("phs000200", ["read-storage", "read"])] ∧
    (∀ s, s ∈ (Fence.dictGet
        (Fence.parse_single_visa user (some [p]) expires now true).project
        "phs000200.c1").getD []
      ↔ (s = "read" ∨ s = "read-storage")) := by
  refine ⟨?_, ?_, ?_⟩
  · simp [Fence.parse_single_visa, hexp, Fence.permStep, Fence.full_phsid,
      hphs, hcg, Fence.truthy, Fence.dictSet]
  · simp [Fence.parse_single_visa, hexp, Fence.permStep, Fence.full_phsid,
      hphs, hcg, Fence.truthy, Fence.dictSet]
  · intro s
    simp [Fence.parse_single_visa, hexp, Fence.permStep, Fence.full_phsid,
      hphs, hcg, Fence.truthy, Fence.dictSet, Fence.dictGet]
    tauto

/-- Witness for C6 at a concrete permission and user. -/
theorem parse_single_visa_consent_code_witness :
    (Fence.parse_single_visa ⟨some "e", none, none, []⟩
        (some [⟨some "phs000200", none, none, some "c1", some "member"⟩])
        100 50 true).project
      = [("phs000200.c1", ["read-storage", "read"])] ∧
    (Fence.parse_single_visa ⟨some "e", none, none, []⟩
        (some [⟨some "phs000200", none, none, some "c1", some "member"⟩])
        100 50 false).project
      = [("phs000200", ["read-storage", "read"])] :=
  ⟨(parse_single_visa_consent_code_composition ⟨some "e", none, none, []⟩
      ⟨some "phs000200", none, none, some "c1", some "member"⟩
      100 50 (by decide) rfl rfl).1,
   (parse_single_visa_consent_code_composition ⟨some "e", none, none, []⟩
      ⟨some "phs000200", none, none, some "c1", some "member"⟩
      100 50 (by decide) rfl rfl).2.1⟩

/-- C9: `get_user_id` derives the username by the fixed precedence
`UserID`, then `userid`, then `preferred_username`, then the ID token's
`sub` claim (a field counts only when truthy), and returns an
identity-resolution error when none of them is present. -/
theorem get_user_id_precedence
    (ui : Fence.RasUserinfo) (sub : Option String) :
    (Fence.truthy ui.UserID →
      Fence.get_user_id ui sub = .ok (ui.UserID.getD "", ui.email)) ∧
    (¬ Fence.truthy ui.UserID → Fence.truthy ui.userid →
      Fence.get_user_id ui sub = .ok (ui.userid.getD "", ui.email)) ∧
    (¬ Fence.truthy ui.UserID → ¬ Fence.truthy ui.userid →
      Fence.truthy ui.preferred_username →
      Fence.get_user_id ui sub
        = .ok (ui.preferred_username.getD "", ui.email)) ∧
    (¬ Fence.truthy ui.UserID → ¬ Fence.truthy ui.userid →
      ¬ Fence.truthy ui.preferred_username → Fence.truthy sub →
      Fence.get_user_id ui sub = .ok (sub.getD "", ui.email)) ∧
    (¬ Fence.truthy ui.UserID → ¬ Fence.truthy ui.userid →
      ¬ Fence.truthy ui.preferred_username → ¬ Fence.truthy sub →
      Fence.get_user_id ui sub = .error "Can't get user's info") := by
  refine ⟨?_, ?_, ?_, ?_, ?_⟩
  · intro h1
    rw [Fence.get_user_id]
    simp only [h1, if_true]
    rw [Fence.truthy_eq_some h1]
    simp
  · intro h1 h2
    rw [Fence.get_user_id]
    simp only [h1, h2, if_false, if_true]
    rw [Fence.truthy_eq_some h2]
    simp
  · intro h1 h2 h3
    rw [Fence.get_user_id]
    simp only [h1, h2, h3, if_false, if_true]
    rw [Fence.truthy_eq_some h3]
    simp
  · intro h1 h2 h3 h4
    rw [Fence.get_user_id]
    simp only [h1, h2, h3, h4, if_false, if_true]
    rw [Fence.truthy_eq_some h4]
    simp
  · intro h1 h2 h3 h4
    rw [Fence.get_user_id]
    simp only [h1, h2, h3, h4, if_false]
    simp

/-- Witness for C9: `userid` wins when `UserID` is absent; with every
source absent the result is the identity-resolution error. -/
theorem get_user_id_precedence_witness :
    Fence.get_user_id ⟨none, some "u2", some "u3", some "e"⟩ (some "s")
      = .ok ("u2", some "e") ∧
    Fence.get_user_id ⟨none, none, none, some "e"⟩ none
      = .error "Can't get user's info" :=
  ⟨(get_user_id_precedence ⟨none, some "u2", some "u3", some "e"⟩
      (some "s")).2.1 (by decide) (by decide),
   (get_user_id_precedence ⟨none, none, none, some "e"⟩
      none).2.2.2.2 (by decide) (by decide) (by decide) (by decide)⟩

/-- C10: when a visa's `ras_dbgap_permissions` list is nonempty (in
particular when it has two or more entries), the `info` returned by
`_parse_single_visa` carries exactly one tag, `dbgap_role` mapped to the
role of the LAST permission — each loop iteration overwrites
`info["tags"]` wholesale — while the project map still has one access key
per permission. -/
theorem parse_single_visa_tags_last_role
    (user : Fence.RasUser) (perms : List Fence.Permission)
    (plast : Fence.Permission) (expires now : Int) (pcc : Bool)
    (hlast : perms.getLast? = some plast) (hexp : now < expires) :
    (Fence.parse_single_visa user (some perms) expires now pcc).tags
      = [("dbgap_role", plast.role.getD "")] ∧
    (∀ p ∈ perms, Fence.full_phsid pcc p
      ∈ (Fence.parse_single_visa user (some perms) expires now pcc).project.map
          Prod.fst) := by
  constructor
  · simp only [Fence.parse_single_visa, hexp, if_true, Option.getD_some]
    exact Fence.foldl_permStep_tags pcc perms plast hlast ([], [])
  · intro p hp
    simp only [Fence.parse_single_visa, hexp, if_true, Option.getD_some]
    exact Fence.foldl_permStep_mem_keys pcc perms ([], []) p hp

/-- Witness for C10: two permissions; only the second one's role survives
in the tags, and both project keys are present. -/
theorem parse_single_visa_tags_last_role_witness :
    (Fence.parse_single_visa ⟨some "e", none, none, []⟩
        (some [⟨some "phs1", none, none, none, some "admin"⟩,
               ⟨some "phs2", none, none, none, some "member"⟩])
        100 50 false).tags = [("dbgap_role", "member")] ∧
    "phs1" ∈ (Fence.parse_single_visa ⟨some "e", none, none, []⟩
        (some [⟨some "phs1", none, none, none, some "admin"⟩,
               ⟨some "phs2", none, none, none, some "member"⟩])
        100 50 false).project.map Prod.fst :=
  ⟨(parse_single_visa_tags_last_role ⟨some "e", none, none, []⟩
      [⟨some "phs1", none, none, none, some "admin"⟩,
       ⟨some "phs2", none, none, none, some "member"⟩]
      ⟨some "phs2", none, none, none, some "member"⟩
      100 50 false rfl (by decide)).1,
   (parse_single_visa_tags_last_role ⟨some "e", none, none, []⟩
      [⟨some "phs1", none, none, none, some "admin"⟩,
       ⟨some "phs2", none, none, none, some "member"⟩]
      ⟨some "phs2", none, none, none, some "member"⟩
      100 50 false rfl (by decide)).2
      ⟨some "phs1", none, none, none, some "admin"⟩ (by simp)⟩

/-- C7: a visa whose decoded claims lack the `sub` claim is discarded by
`update_user_visas` — the loop iteration produces no persisted record —
regardless of how every other check (signature, expiration, scope,
issuer allowlist, iat) would turn out. -/
theorem update_user_visas_missing_sub_discarded
    (jwks : String → Except String Fence.KeySet) (allowlist : List String)
    (now : Int) (cache : Fence.PKeyCache) (enc : Fence.EncVisa)
    (hsub : enc.payload.sub = none) :
    (Fence.processVisa jwks allowlist now cache enc).1 = none := by
  rw [Fence.processVisa]
  cases henc : enc.header with
  | none => rfl
  | some pr =>
    obtain ⟨iss, kid⟩ := pr
    dsimp only
    split_ifs with h1
    · exact Fence.validateAndBuild_sub_none enc _ allowlist now hsub
    · cases hr : Fence.refresh_cronjob_pkey_cache jwks iss kid cache with
      | error e => rfl
      | ok pr2 =>
        dsimp only
        split_ifs with h2
        · exact Fence.validateAndBuild_sub_none enc _ allowlist now hsub
        · rfl

/-- Witness for C7: a visa that would pass every other check but carries no
`sub` claim is not persisted. -/
theorem update_user_visas_missing_sub_discarded_witness :
    (Fence.processVisa (fun _ => .error "unreachable") ["https://issuer"] 50
        [("https://issuer", [("kid1", "KEY")])]
        ⟨"rawvisa", some ("https://issuer", "kid1"), "KEY",
         ⟨"https://issuer", none, some 1, 100, false, ["openid"],
          ⟨"https://source", "https://type", 5⟩⟩⟩).1 = none :=
  update_user_visas_missing_sub_discarded (fun _ => .error "unreachable")
    ["https://issuer"] 50 [("https://issuer", [("kid1", "KEY")])]
    ⟨"rawvisa", some ("https://issuer", "kid1"), "KEY",
     ⟨"https://issuer", none, some 1, 100, false, ["openid"],
      ⟨"https://source", "https://type", 5⟩⟩⟩ rfl

/-- C8: with `(issuer, key-id)` already resolvable from the cache, the visa
is validated against the cached key with no key-set fetch and no cache
change; on a cache miss a key-set fetch happens; and a miss whose fetch
fails, or whose fetched key-set lacks the key-id, discards the visa. -/
theorem pkey_cache_hit_no_fetch
    (jwks : String → Except String Fence.KeySet) (allowlist : List String)
    (now : Int) (cache : Fence.PKeyCache) (enc : Fence.EncVisa)
    (iss kid : String) (hh : enc.header = some (iss, kid)) :
    (∀ k, Fence.cacheGetKey cache iss kid = some k → k ≠ "" →
      Fence.processVisa jwks allowlist now cache enc
        = (Fence.validateAndBuild enc k allowlist now, cache, [])) ∧
    ((Fence.cacheGetKey cache iss kid).getD "" = "" →
      (Fence.processVisa jwks allowlist now cache enc).2.2
        = [Fence.Ev.jwksFetch iss]) ∧
    ((Fence.cacheGetKey cache iss kid).getD "" = "" →
      ∀ e, jwks iss = .error e →
      (Fence.processVisa jwks allowlist now cache enc).1 = none) ∧
    ((Fence.cacheGetKey cache iss kid).getD "" = "" →
      ∀ ks, jwks iss = .ok ks → Fence.dictGet ks kid = none →
      (Fence.processVisa jwks allowlist now cache enc).1 = none) := by
  refine ⟨?_, ?_, ?_, ?_⟩
  · intro k hk hk0
    rw [Fence.processVisa, hh]
    simp [hk, hk0]
  · intro hmiss
    rw [Fence.processVisa, hh]
    dsimp only
    rw [hmiss]
    simp only [ne_eq, not_true_eq_false, if_false]
    cases hr : Fence.refresh_cronjob_pkey_cache jwks iss kid cache with
    | error e => rfl
    | ok pr2 =>
      dsimp only
      split_ifs <;> rfl
  · intro hmiss e he
    rw [Fence.processVisa, hh]
    dsimp only
    rw [hmiss]
    simp only [ne_eq, not_true_eq_false, if_false]
    rw [Fence.refresh_cronjob_pkey_cache, he]
  · intro hmiss ks hks hkid
    rw [Fence.processVisa, hh]
    dsimp only
    rw [hmiss]
    simp only [ne_eq, not_true_eq_false, if_false]
    rw [Fence.refresh_cronjob_pkey_cache, hks]
    simp [hkid]

/-- Witness for C8: a cache hit validates against the cached key with an
empty event list (no fetch); the same visa against an empty cache records a
key-set fetch, and a failing fetch discards the visa. -/
theorem pkey_cache_hit_no_fetch_witness :
    Fence.processVisa (fun _ => .error "down") ["https://issuer"] 50
        [("https://issuer", [("kid1", "KEY")])]
        ⟨"rawvisa", some ("https://issuer", "kid1"), "KEY",
         ⟨"https://issuer", some "subj", some 1, 100, false, ["openid"],
          ⟨"https://source", "https://type", 5⟩⟩⟩
      = (Fence.validateAndBuild
          ⟨"rawvisa", some ("https://issuer", "kid1"), "KEY",
           ⟨"https://issuer", some "subj", some 1, 100, false, ["openid"],
            ⟨"https://source", "https://type", 5⟩⟩⟩ "KEY" ["https://issuer"] 50,
         [("https://issuer", [("kid1", "KEY")])], []) ∧
    (Fence.processVisa (fun _ => .error "down") ["https://issuer"] 50 []
        ⟨"rawvisa", some ("https://issuer", "kid1"), "KEY",
         ⟨"https://issuer", some "subj", some 1, 100, false, ["openid"],
          ⟨"https://source", "https://type", 5⟩⟩⟩).2.2
      = [Fence.Ev.jwksFetch "https://issuer"] ∧
    (Fence.processVisa (fun _ => .error "down") ["https://issuer"] 50 []
        ⟨"rawvisa", some ("https://issuer", "kid1"), "KEY",
         ⟨"https://issuer", some "subj", some 1, 100, false, ["openid"],
          ⟨"https://source", "https://type", 5⟩⟩⟩).1 = none :=
  ⟨(pkey_cache_hit_no_fetch (fun _ => .error "down") ["https://issuer"] 50
      [("https://issuer", [("kid1", "KEY")])]
      ⟨"rawvisa", some ("https://issuer", "kid1"), "KEY",
       ⟨"https://issuer", some "subj", some 1, 100, false, ["openid"],
        ⟨"https://source", "https://type", 5⟩⟩⟩
      "https://issuer" "kid1" rfl).1 "KEY" rfl (by decide),
   (pkey_cache_hit_no_fetch (fun _ => .error "down") ["https://issuer"] 50 []
      ⟨"rawvisa", some ("https://issuer", "kid1"), "KEY",
       ⟨"https://issuer", some "subj", some 1, 100, false, ["openid"],
        ⟨"https://source", "https://type", 5⟩⟩⟩
      "https://issuer" "kid1" rfl).2.1 rfl,
   (pkey_cache_hit_no_fetch (fun _ => .error "down") ["https://issuer"] 50 []
      ⟨"rawvisa", some ("https://issuer", "kid1"), "KEY",
       ⟨"https://issuer", some "subj", some 1, 100, false, ["openid"],
        ⟨"https://source", "https://type", 5⟩⟩⟩
      "https://issuer" "kid1" rfl).2.2.1 rfl "down" rfl⟩

/-- C3: within every attempt of `update_user_visas`, the clear-and-commit of
the user's visa set is the first observable event — it strictly precedes the
network calls — and when every bounded-backoff attempt's fetch fails, the
function raises a sync-level error and the user's committed visa set is
empty: no stale or partial visa state survives. -/
theorem update_user_visas_clear_first_fail_closed
    (jwks : String → Except String Fence.KeySet) (allowlist : List String)
    (now : Int) (cache : Fence.PKeyCache)
    (attempts : List (Except String (List Fence.EncVisa))) :
    ((∀ a ∈ attempts, ∃ e, a = Except.error e) → attempts ≠ [] →
      (∃ e, (Fence.update_user_visas_retry jwks allowlist now attempts cache).1
          = Except.error e) ∧
      (Fence.update_user_visas_retry jwks allowlist now attempts cache).2.1
        = []) ∧
    (∀ fetch,
      ((Fence.update_user_visas_once fetch jwks allowlist now cache).2.2.2).head?
        = some Fence.Ev.clearCommit) := by
  constructor
  · induction attempts generalizing cache with
    | nil => intro _ hne; exact absurd rfl hne
    | cons a rest ih =>
      intro hall _
      obtain ⟨e, he⟩ := hall a (by simp)
      subst he
      cases rest with
      | nil => exact ⟨⟨e, rfl⟩, rfl⟩
      | cons b rest' =>
        have hred : Fence.update_user_visas_retry jwks allowlist now
            (Except.error e :: b :: rest') cache
            = Fence.update_user_visas_retry jwks allowlist now (b :: rest')
                cache := rfl
        rw [hred]
        exact ih cache (fun x hx => hall x (by simp [hx])) (by simp)
  · intro fetch
    cases fetch <;> rfl

/-- Witness for C3: two attempts whose fetch both fail leave an error result
with an empty visa set, and every attempt's trace starts with the
clear-and-commit. -/
theorem update_user_visas_clear_first_fail_closed_witness :
    ((∃ e, (Fence.update_user_visas_retry (fun _ => .error "down") [] 0
        [Except.error "net down", Except.error "net down"] []).1
        = Except.error e) ∧
      (Fence.update_user_visas_retry (fun _ => .error "down") [] 0
        [Except.error "net down", Except.error "net down"] []).2.1 = []) ∧
    ((Fence.update_user_visas_once (Except.error "net down")
        (fun _ => .error "down") [] 0 []).2.2.2).head?
      = some Fence.Ev.clearCommit :=
  ⟨(update_user_visas_clear_first_fail_closed (fun _ => .error "down") [] 0 []
      [Except.error "net down", Except.error "net down"]).1
      (fun a ha => by
        rcases List.mem_cons.mp ha with rfl | ha2
        · exact ⟨"net down", rfl⟩
        · rcases List.mem_cons.mp ha2 with rfl | h
          · exact ⟨"net down", rfl⟩
          · exact absurd h (List.not_mem_nil a))
      (by simp),
   (update_user_visas_clear_first_fail_closed (fun _ => .error "down") [] 0 []
      [Except.error "net down", Except.error "net down"]).2
      (Except.error "net down")⟩

/-- C4: in a batch of one malformed visa followed by one structurally valid
visa, the loop discards the malformed visa, continues, and still persists
the valid one; the sync as a whole succeeds. -/
theorem update_user_visas_batch_independent
    (jwks : String → Except String Fence.KeySet) (allowlist : List String)
    (now : Int) (cache : Fence.PKeyCache) (bad good : Fence.EncVisa)
    (iss kid k s : String)
    (hbad : bad.header = none)
    (hgh : good.header = some (iss, kid))
    (hk : Fence.cacheGetKey cache iss kid = some k) (hk0 : k ≠ "")
    (hsig : good.sigKey = k)
    (haud : good.payload.hasAud = false)
    (hscope : "openid" ∈ good.payload.scope)
    (hiss : good.payload.iss ∈ allowlist)
    (hiat : good.payload.iat ≠ none)
    (hexp : now < good.payload.exp)
    (hsub : good.payload.sub = some s) :
    (Fence.update_user_visas_once (.ok [bad, good]) jwks allowlist now
        cache).1 = .ok () ∧
    (Fence.update_user_visas_once (.ok [bad, good]) jwks allowlist now
        cache).2.1
      = [⟨good.payload.ga4gh.source, good.payload.ga4gh.type,
          good.payload.ga4gh.asserted, good.payload.exp, good.raw⟩] := by
  have h3 := Fence.validateAndBuild_ok good k allowlist now hsig.symm haud
    hscope hiss hiat hexp s hsub
  have h1 : Fence.processVisa jwks allowlist now cache bad
      = (none, cache, []) := by
    rw [Fence.processVisa, hbad]
  have h2 : Fence.processVisa jwks allowlist now cache good
      = (Fence.validateAndBuild good k allowlist now, cache, []) := by
    rw [Fence.processVisa, hgh]
    simp [hk, hk0]
  constructor
  · rfl
  · show (Fence.visaLoop jwks allowlist now [bad, good] cache).1 = _
    simp [Fence.visaLoop, h1, h2, h3]

/-- Witness for C4 at a concrete malformed/valid pair. -/
theorem update_user_visas_batch_independent_witness :
    (Fence.update_user_visas_once
        (.ok [⟨"badvisa", none, "", ⟨"", none, none, 0, false, [],
                ⟨"", "", 0⟩⟩⟩,
              ⟨"goodvisa", some ("https://issuer", "kid1"), "KEY",
               ⟨"https://issuer", some "subj", some 1, 100, false, ["openid"],
                ⟨"https://source", "https://type", 5⟩⟩⟩])
        (fun _ => .error "down") ["https://issuer"] 50
        [("https://issuer", [("kid1", "KEY")])]).1 = .ok () ∧
    (Fence.update_user_visas_once
        (.ok [⟨"badvisa", none, "", ⟨"", none, none, 0, false, [],
                ⟨"", "", 0⟩⟩⟩,
              ⟨"goodvisa", some ("https://issuer", "kid1"), "KEY",
               ⟨"https://issuer", some "subj", some 1, 100, false, ["openid"],
                ⟨"https://source", "https://type", 5⟩⟩⟩])
        (fun _ => .error "down") ["https://issuer"] 50
        [("https://issuer", [("kid1", "KEY")])]).2.1
      = [⟨"https://source", "https://type", 5, 100, "goodvisa"⟩] :=
  update_user_visas_batch_independent (fun _ => .error "down")
    ["https://issuer"] 50 [("https://issuer", [("kid1", "KEY")])]
    ⟨"badvisa", none, "", ⟨"", none, none, 0, false, [], ⟨"", "", 0⟩⟩⟩
    ⟨"goodvisa", some ("https://issuer", "kid1"), "KEY",
     ⟨"https://issuer", some "subj", some 1, 100, false, ["openid"],
      ⟨"https://source", "https://type", 5⟩⟩⟩
    "https://issuer" "kid1" "KEY" "subj" rfl rfl rfl (by decide) rfl rfl
    (by decide) (by decide) (by decide) (by decide) rfl
